import Mathlib

/-!
A verification development for the pointer-interaction and logging utilities of
the calendar-card widget (`src/utils/interaction.ts`, `src/utils/logger-utils.ts`).

The TypeScript sources are shallowly embedded: the per-gesture closure state and
the shared mutable `InteractionState` object become explicit record types, the
browser event loop becomes a step function over an explicit event list, and
`setTimeout` / `clearTimeout` become a queue of pending timer callbacks with
fresh handles.  Visual elements (ripples, the hold indicator) are tracked by
count / presence flag; purely cosmetic data (element references, CSS, the
`instanceId` string and the `lastActionTime` clock read) carry no behaviour
relevant to the verified properties and are not part of the state.
-/

namespace CalendarCardPro

/-! ## Configuration model (`src/config/types.ts` shapes used by interaction.ts)

An `ActionConfig` mirrors the action descriptor: every field is optional at the
JavaScript level, so each is an `Option`.  A missing descriptor (`undefined`
`tap_action` / `hold_action`) is `none` at the `Option ActionConfig` layer. -/

structure ActionConfig where
  action : Option String
  navigation_path : Option String
  service : Option String
  url_path : Option String
deriving Repr, DecidableEq

structure Config where
  tap_action : Option ActionConfig
  hold_action : Option ActionConfig
deriving Repr, DecidableEq

/-- Guard `config.xxx_action && config.xxx_action.action !== 'none'` used at
interaction.ts:750, 825 and 833-835: the descriptor object must be present and
its `action` field must not be the string `'none'` (a missing `action` field is
`undefined !== 'none'`, hence passes the guard). -/
def actionGuard : Option ActionConfig → Bool
  | none => false
  | some c => c.action ≠ some "none"

/-! ## Action dispatcher (`handleAction` and helpers, interaction.ts:36-204)

External effects (DOM event dispatch, history API, `hass.callService`,
`window.open`, the `toggleExpanded` callback) are abstracted as a runner
`EffKind → Except String Unit`; `Except.error` models a thrown exception. -/

inductive EffKind
  | moreInfo (entityId : String)
  | navigate (path : String)
  | callService (domain service : String)
  | url (u : String)
  | expand
deriving Repr, DecidableEq

/-- Security normalisation in `openUrl` (interaction.ts:191-194): a URL that is
neither http(s) nor site-relative gets an `https://` prefix. -/
def normalizeUrl (url : String) : String :=
  if url.startsWith "http://" || url.startsWith "https://" || url.startsWith "/" then url
  else "https://" ++ url

/-- Body of `fireMoreInfo` (interaction.ts:94-115): missing entity id is a
logged no-op; the event dispatch is attempted inside its own try/catch, so a
throwing dispatch is caught locally (returned as a logged message). -/
def fireMoreInfo (entityId : String) (runEffect : EffKind → Except String Unit) :
    List EffKind × Option String :=
  if entityId = "" then ([], none)
  else
    match runEffect (.moreInfo entityId) with
    | .ok _ => ([.moreInfo entityId], none)
    | .error e => ([], some e)

/-- Body of `handleNavigation` (interaction.ts:122-143): missing path is a
logged no-op; the history push / event dispatch is inside its own try/catch. -/
def handleNavigation (cfg : ActionConfig) (runEffect : EffKind → Except String Unit) :
    List EffKind × Option String :=
  match cfg.navigation_path with
  | none => ([], none)
  | some p =>
    if p = "" then ([], none)
    else
      match runEffect (.navigate p) with
      | .ok _ => ([.navigate p], none)
      | .error e => ([], some e)

/-- Body of `callService` (interaction.ts:151-173): missing service or a
service string that does not split into exactly `domain.service` is a logged
no-op; the actual `hass.callService` call is inside its own try/catch. -/
def callService (cfg : ActionConfig) (runEffect : EffKind → Except String Unit) :
    List EffKind × Option String :=
  match cfg.service with
  | none => ([], none)
  | some sv =>
    if sv = "" then ([], none)
    else
      match sv.splitOn "." with
      | [domain, service] =>
        (match runEffect (.callService domain service) with
         | .ok _ => ([.callService domain service], none)
         | .error e => ([], some e))
      | _ => ([], none)

/-- Body of `openUrl` (interaction.ts:180-204): missing URL is a logged no-op;
the `window.open` call is inside its own try/catch. -/
def openUrl (cfg : ActionConfig) (runEffect : EffKind → Except String Unit) :
    List EffKind × Option String :=
  match cfg.url_path with
  | none => ([], none)
  | some u =>
    if u = "" then ([], none)
    else
      match runEffect (.url (normalizeUrl u)) with
      | .ok _ => ([.url (normalizeUrl u)], none)
      | .error e => ([], some e)

/-- The `switch` statement inside the try-block of `handleAction`
(interaction.ts:52-80).  The result is the list of completed external effects
plus any message logged by an inner catch.  Only the `expand` case calls its
effect (`toggleExpanded()`) without an inner try/catch, so only it can
propagate an exception (an `Except.error`) out of the switch to the outer
catch.  An unknown action type only logs a warning. -/
def handleActionBody (a : String) (cfg : ActionConfig) (hassAvailable : Bool)
    (entityId : String) (runEffect : EffKind → Except String Unit) :
    Except String (List EffKind × Option String) :=
  if a = "more-info" then .ok (fireMoreInfo entityId runEffect)
  else if a = "navigate" then .ok (handleNavigation cfg runEffect)
  else if a = "call-service" then
    if hassAvailable then .ok (callService cfg runEffect)
    else .ok ([], none)
  else if a = "url" then .ok (openUrl cfg runEffect)
  else if a = "expand" then
    match runEffect .expand with
    | .ok _ => .ok ([.expand], none)
    | .error e => .error e
  else .ok ([], none)

/-- `handleAction` (interaction.ts:36-85).  A missing descriptor, a missing or
empty `action` field, or `action === 'none'` returns immediately with no
effect.  Otherwise the switch body runs inside a try/catch: a propagated
exception is caught and logged (second component), never re-raised — the
function is total and its callers (the pointer-up handler) always continue to
their cleanup code. -/
def handleAction (actionConfig : Option ActionConfig) (hassAvailable : Bool)
    (entityId : String) (runEffect : EffKind → Except String Unit) :
    List EffKind × Option String :=
  match actionConfig with
  | none => ([], none)
  | some cfg =>
    match cfg.action with
    | none => ([], none)
    | some a =>
      if a = "" || a = "none" then ([], none)
      else
        match handleActionBody a cfg hassAvailable entityId runEffect with
        | .ok r => r
        | .error e => ([], some e)

/-! ## Primary entity id (interaction.ts:19-24)

`getPrimaryEntityId` reads `entities[0]`; on an empty array that is
`undefined`, the `typeof` test fails and the `.entity` member access throws a
`TypeError`.  The fallible read is embedded as an `Option`: `none` is the
crash on the empty list. -/

inductive EntityEntry
  | str (s : String)
  | obj (entity : String) (color : Option String)
deriving Repr, DecidableEq

/-- Identifier carried by one entry of the `entities` configuration list: the
string itself, or the `entity` field of the object form. -/
def entityIdOf : EntityEntry → String
  | .str s => s
  | .obj entity _ => entity

/-- `getPrimaryEntityId` (interaction.ts:19-24): id of the first entry;
`none` models the `TypeError` thrown on an empty list. -/
def getPrimaryEntityId (entities : List EntityEntry) : Option String :=
  match entities.head? with
  | none => none
  | some (.str s) => some s
  | some (.obj entity _) => some entity

/-! ## Logger banner state (`logger-utils.ts`)

The module-level mutable variables become an explicit record threaded through
the functions; a function that prints returns the list of console lines it
emitted. -/

structure LoggerState where
  DEBUG_MODE : Bool
  CURRENT_LOG_LEVEL : Nat
  BANNER_SHOWN : Bool
deriving Repr, DecidableEq

/-- `printVersionBanner` (logger-utils.ts:80-103): if `BANNER_SHOWN` is
already set the call prints nothing and leaves the state untouched; otherwise
it prints the three banner lines and sets the flag. -/
def printVersionBanner (version : String) (s : LoggerState) :
    List String × LoggerState :=
  if s.BANNER_SHOWN then ([], s)
  else
    (["%c📅 Calendar Card Pro%cv" ++ version ++ " ",
      "%c Description: %c A calendar card that supports multiple calendars with individual styling. ",
      "%c GitHub: %c https://github.com/alexpfau/calendar-card-pro "],
     { s with BANNER_SHOWN := true })

/-- `initializeLogger` (logger-utils.ts:67-74): stores the debug mode, sets the
level (`DEBUG = 3` when debugging, otherwise `WARN = 1`) and then always calls
`printVersionBanner`. -/
def initializeLogger (version : String) (debugMode : Bool) (s : LoggerState) :
    List String × LoggerState :=
  let s := { s with DEBUG_MODE := debugMode,
                    CURRENT_LOG_LEVEL := if debugMode then 3 else 1 }
  printVersionBanner version s

/-! ## Pointer gesture state machine (`setupInteractions`, interaction.ts:657-948)

Each `pointerdown` on the element runs `pointerDownHandler`, which mutates the
shared `state` object and registers three window listeners closing over the
down event (`ev.pointerId`, `ev.clientX/Y`) and a fresh local `hasMoved`.  A
`GestureClosure` records that closure's captured values and which of its
listeners are still attached (`pointerup` / `pointercancel` are registered
`{once: true}` and also remove each other explicitly).

`window.setTimeout(cb, 500)` becomes a `(handle, pointerId)` entry in a pending
queue (the callback only uses the captured `ev.pointerId`); `clearTimeout`
removes a handle; a timer that has been cleared never fires, and one that has
fired is removed from the queue so it cannot fire twice. -/

structure GestureClosure where
  pid : Nat
  startX : Int
  startY : Int
  hasMoved : Bool
  moveActive : Bool
  upActive : Bool
  cancelActive : Bool
deriving Repr, DecidableEq

/-- The shared `InteractionState` record (interaction.ts:644-652).  The
`holdIndicator` element reference is tracked as a presence flag; `instanceId`
and `lastActionTime` have no bearing on the verified behaviour. -/
structure InteractionState where
  holdTimer : Option Nat
  holdTriggered : Bool
  holdIndicator : Bool
  activePointerId : Option Nat
  pendingHoldAction : Bool
deriving Repr, DecidableEq

/-- `createFreshState` (interaction.ts:699-707). -/
def createFreshState : InteractionState :=
  { holdTimer := none
    holdTriggered := false
    holdIndicator := false
    activePointerId := none
    pendingHoldAction := false }

/-- Which of the two configured actions a `handleAction` call dispatched. -/
inductive GKind
  | tap
  | hold
deriving Repr, DecidableEq

/-- Whole-system state of one `setupInteractions` instance: the shared mutable
state, the per-gesture closures in registration order, the pending timer queue
with a fresh-handle counter, the actions dispatched so far, and the number of
ripple elements in the ripple container. -/
structure Sys where
  state : InteractionState
  closures : List GestureClosure
  pendingTimers : List (Nat × Nat)
  nextTimer : Nat
  fired : List GKind
  ripples : Nat
deriving Repr, DecidableEq

/-- State right after `setupInteractions` attached the handler. -/
def initSys : Sys :=
  { state := createFreshState
    closures := []
    pendingTimers := []
    nextTimer := 0
    fired := []
    ripples := 0 }

/-- `clearTimeout(h)`: the pending callback with handle `h` is removed and can
never fire. -/
def clearTimeout (pendingTimers : List (Nat × Nat)) (h : Nat) : List (Nat × Nat) :=
  pendingTimers.filter (fun t => t.1 ≠ h)

/-- The idiom `if (state.holdTimer !== null) { clearTimeout(state.holdTimer);
state.holdTimer = null; }` (interaction.ts:752-755, 798-801, 813-816, 873-876
and 715-718). -/
def clearHoldTimer (s : Sys) : Sys :=
  match s.state.holdTimer with
  | none => s
  | some h =>
    { s with pendingTimers := clearTimeout s.pendingTimers h
             state := { s.state with holdTimer := none } }

/-- `Math.sqrt(dx*dx + dy*dy) > 10` (interaction.ts:791-795), stated without
the square root: for integer displacements the comparison is exact. -/
def beyondThreshold (dx dy : Int) : Bool :=
  dx * dx + dy * dy > 100

/-- `pointerDownHandler` (interaction.ts:736-779 plus listener registration at
901-904): reset the hold flags, take over `activePointerId`, spawn a ripple,
and — when a hold action is configured — replace any existing hold timer with
a fresh 500 ms timer whose callback captures this event's `pointerId`.
Finally a new gesture closure with all three window listeners is live. -/
def stepDown (cfg : Config) (s : Sys) (pid : Nat) (x y : Int) : Sys :=
  let s := { s with
    state := { s.state with holdTriggered := false
                            pendingHoldAction := false
                            activePointerId := some pid }
    ripples := s.ripples + 1 }
  let s :=
    if actionGuard cfg.hold_action then
      let s := clearHoldTimer s
      { s with pendingTimers := s.pendingTimers ++ [(s.nextTimer, pid)]
               nextTimer := s.nextTimer + 1
               state := { s.state with holdTimer := some s.nextTimer } }
    else s
  { s with closures := s.closures ++
      [{ pid := pid, startX := x, startY := y, hasMoved := false,
         moveActive := true, upActive := true, cancelActive := true }] }

/-- Delivery of the hold-timer callback (interaction.ts:758-778): it runs only
if its handle is still pending, is then spent, and acts only when the captured
`pointerId` is still the active pointer — marking `holdTriggered` and
`pendingHoldAction` and creating the hold indicator (the action itself is not
executed).  Note the callback does not null `state.holdTimer`. -/
def stepFireTimer (s : Sys) (h : Nat) : Sys :=
  match s.pendingTimers.find? (fun t => t.1 = h) with
  | none => s
  | some t =>
    let s := { s with pendingTimers := clearTimeout s.pendingTimers h }
    if s.state.activePointerId = some t.2 then
      { s with state := { s.state with holdTriggered := true
                                       pendingHoldAction := true
                                       holdIndicator := true } }
    else s

/-- One closure's `handlePointerMove` (interaction.ts:786-803).  The handler
ignores the move event's own `pointerId`: its guard compares
`state.activePointerId` against the captured down event's `pointerId`.  Beyond
the 10-unit threshold it sets the closure's `hasMoved` and clears the hold
timer. -/
def moveHandlerOne (x y : Int) (s : Sys) (c : GestureClosure) :
    Sys × GestureClosure :=
  if !c.moveActive then (s, c)
  else if s.state.activePointerId = some c.pid then
    if beyondThreshold (x - c.startX) (y - c.startY) then
      (clearHoldTimer s, { c with hasMoved := true })
    else (s, c)
  else (s, c)

/-- Window `pointermove` delivery: every still-attached move listener runs, in
registration order. -/
def runMoveHandlers (x y : Int) : Sys → List GestureClosure → Sys × List GestureClosure
  | s, [] => (s, [])
  | s, c :: rest =>
    let pc := moveHandlerOne x y s c
    let qr := runMoveHandlers x y pc.1 rest
    (qr.1, pc.2 :: qr.2)

/-- A `pointermove` event reaching the window.  The moving pointer's id is
irrelevant to the handlers (see `moveHandlerOne`). -/
def stepMove (s : Sys) (x y : Int) : Sys :=
  let r := runMoveHandlers x y s s.closures
  { r.1 with closures := r.2 }

/-- One closure's `handlePointerUp` (interaction.ts:805-866).  The `{once:
true}` registration spends the listener even when the active-pointer guard
fails; the handler first detaches its move listener, and on passing the guard
clears the hold timer, releases the active pointer, dispatches the hold action
(if `pendingHoldAction` and not moved) or else the tap action (if neither
`holdTriggered` nor moved and a tap action is configured), removes the hold
indicator, resets the hold flags, fades out this gesture's ripple, and
detaches its cancel listener. -/
def upHandlerOne (cfg : Config) (s : Sys) (c : GestureClosure) :
    Sys × GestureClosure :=
  if !c.upActive then (s, c)
  else
    let c := { c with upActive := false, moveActive := false }
    if s.state.activePointerId = some c.pid then
      let s := clearHoldTimer s
      let s := { s with state := { s.state with activePointerId := none } }
      let s :=
        if s.state.pendingHoldAction && !c.hasMoved then
          let s :=
            if actionGuard cfg.hold_action then
              { s with fired := s.fired ++ [GKind.hold] }
            else s
          { s with state := { s.state with pendingHoldAction := false } }
        else if !s.state.holdTriggered && !c.hasMoved && actionGuard cfg.tap_action then
          { s with fired := s.fired ++ [GKind.tap] }
        else s
      let s := { s with state := { s.state with holdIndicator := false
                                                holdTriggered := false
                                                pendingHoldAction := false } }
      let s := { s with ripples := s.ripples - 1 }
      (s, { c with cancelActive := false })
    else (s, c)

/-- Window `pointerup` delivery to every still-attached up listener, in
registration order. -/
def runUpHandlers (cfg : Config) : Sys → List GestureClosure → Sys × List GestureClosure
  | s, [] => (s, [])
  | s, c :: rest =>
    let pc := upHandlerOne cfg s c
    let qr := runUpHandlers cfg pc.1 rest
    (qr.1, pc.2 :: qr.2)

/-- A `pointerup` event reaching the window.  `handlePointerUp` never reads
the up event itself — its guard uses the captured down event — so the
releasing pointer's id does not enter the transition. -/
def stepUp (cfg : Config) (s : Sys) : Sys :=
  let r := runUpHandlers cfg s s.closures
  { r.1 with closures := r.2 }

/-- One closure's `handlePointerCancel` (interaction.ts:868-899): no pointer
guard at all — it detaches its move listener, clears the hold timer, resets
the tracking state to idle, removes the hold indicator, removes this
gesture's ripple and detaches the up listener. -/
def cancelHandlerOne (s : Sys) (c : GestureClosure) : Sys × GestureClosure :=
  if !c.cancelActive then (s, c)
  else
    let c := { c with cancelActive := false, moveActive := false, upActive := false }
    let s := clearHoldTimer s
    let s := { s with state := { s.state with activePointerId := none
                                              holdTriggered := false
                                              pendingHoldAction := false
                                              holdIndicator := false } }
    let s := { s with ripples := s.ripples - 1 }
    (s, c)

/-- Window `pointercancel` delivery to every still-attached cancel listener. -/
def runCancelHandlers : Sys → List GestureClosure → Sys × List GestureClosure
  | s, [] => (s, [])
  | s, c :: rest =>
    let pc := cancelHandlerOne s c
    let qr := runCancelHandlers pc.1 rest
    (qr.1, pc.2 :: qr.2)

/-- A `pointercancel` event reaching the window. -/
def stepCancel (s : Sys) : Sys :=
  let r := runCancelHandlers s s.closures
  { r.1 with closures := r.2 }

/-- `resetInteractions` (interaction.ts:713-732): clear the hold timer, drop
the hold indicator, empty the ripple container, and replace the shared state
with a completely fresh object.  Live per-gesture window listeners are not
touched, and no action is dispatched. -/
def resetInteractions (s : Sys) : Sys :=
  let s := clearHoldTimer s
  { s with state := createFreshState, ripples := 0 }

/-- `navigationListener` (interaction.ts:915-936) after its 250 ms settling
delay: only when the element is still connected does it swap the pointerdown
handler and run `resetInteractions`; on a disconnected element it does
nothing. -/
def stepNav (s : Sys) (connected : Bool) : Sys :=
  if connected then resetInteractions s else s

/-- External events driving one interaction instance.  `move` and `up` carry
the event's `pointerId` for fidelity to the browser event even though the
registered handlers ignore it (see `moveHandlerOne`, `stepUp`).  `fire h`
is the event loop delivering the timer callback with handle `h` (it is a
no-op unless that handle is still pending).  `nav connected` is a
`location-changed` event observed after the settling delay, with the
element's `isConnected` status at that moment. -/
inductive Ev
  | down (pid : Nat) (x y : Int)
  | move (pid : Nat) (x y : Int)
  | up (pid : Nat)
  | fire (h : Nat)
  | cancel
  | nav (connected : Bool)
deriving Repr, DecidableEq

/-- One event-loop step. -/
def step (cfg : Config) (s : Sys) : Ev → Sys
  | .down pid x y => stepDown cfg s pid x y
  | .move _ x y => stepMove s x y
  | .up _ => stepUp cfg s
  | .fire h => stepFireTimer s h
  | .cancel => stepCancel s
  | .nav connected => stepNav s connected

/-- Run a whole event trace from the freshly-attached instance. -/
def run (cfg : Config) (evs : List Ev) : Sys :=
  evs.foldl (step cfg) initSys

/-- Number of hold-action dispatches in the trace so far. -/
def holdCount (s : Sys) : Nat :=
  (s.fired.filter (fun k => k = GKind.hold)).length

/-- Number of tap-action dispatches in the trace so far. -/
def tapCount (s : Sys) : Nat :=
  (s.fired.filter (fun k => k = GKind.tap)).length

/-! ## Concrete configurations and effect runners used as test inputs -/

/-- A configuration with a real tap action and a real hold action. -/
def cfgBoth : Config :=
  { tap_action := some { action := some "more-info", navigation_path := none,
                         service := none, url_path := none }
    hold_action := some { action := some "expand", navigation_path := none,
                          service := none, url_path := none } }

/-- An expand descriptor whose `toggleExpanded` callback throws. -/
def cfgExpand : ActionConfig :=
  { action := some "expand", navigation_path := none, service := none, url_path := none }

/-- An effect runner on which every external effect throws. -/
def throwingRunner : EffKind → Except String Unit :=
  fun _ => Except.error "boom"

/-! ## Gesture-trace vocabulary and staged machine states

The lemmas below compute the machine state along the canonical single-pointer
gesture traces, so that the claims can quantify over arbitrary interleaved
sub-threshold pointer movement. -/

/-- A pointer-move event whose displacement from the gesture origin `(x, y)`
stays within the 10-unit threshold (any pointer id: the move handler ignores
the event's own id). -/
def withinMoveOf (x y : Int) : Ev → Prop
  | .move _ mx my => beyondThreshold (mx - x) (my - y) = false
  | _ => False

/-- Events that may occur strictly inside a gesture (between the pointer-down
and its up/cancel): pointer moves and timer deliveries. -/
def gestureMid : Ev → Prop
  | .move _ _ _ => True
  | .fire _ => True
  | _ => False

/-- Every pending timer's handle is the one recorded in `state.holdTimer`
(true of every reachable single-gesture state: the machine stores at most one
live timer and always clears the stored handle before creating a new one). -/
def timersConsistent (s : Sys) : Prop :=
  ∀ t ∈ s.pendingTimers, s.state.holdTimer = some t.1

/-- Machine state after the opening `pointerdown` from the initial state when
a hold action is configured. -/
def downSys (pid : Nat) (x y : Int) : Sys :=
  { state := { holdTimer := some 0, holdTriggered := false, holdIndicator := false,
               activePointerId := some pid, pendingHoldAction := false }
    closures := [{ pid := pid, startX := x, startY := y, hasMoved := false,
                   moveActive := true, upActive := true, cancelActive := true }]
    pendingTimers := [(0, pid)]
    nextTimer := 1
    fired := []
    ripples := 1 }

/-- Machine state after the opening `pointerdown` when no hold action is
configured (no timer is started). -/
def downSysNoHold (pid : Nat) (x y : Int) : Sys :=
  { state := { holdTimer := none, holdTriggered := false, holdIndicator := false,
               activePointerId := some pid, pendingHoldAction := false }
    closures := [{ pid := pid, startX := x, startY := y, hasMoved := false,
                   moveActive := true, upActive := true, cancelActive := true }]
    pendingTimers := []
    nextTimer := 0
    fired := []
    ripples := 1 }

/-- Machine state after the hold timer fired with the pointer still down and
unmoved: flags set, indicator shown, the spent timer handle still stored. -/
def heldSys (pid : Nat) (x y : Int) : Sys :=
  { state := { holdTimer := some 0, holdTriggered := true, holdIndicator := true,
               activePointerId := some pid, pendingHoldAction := true }
    closures := [{ pid := pid, startX := x, startY := y, hasMoved := false,
                   moveActive := true, upActive := true, cancelActive := true }]
    pendingTimers := []
    nextTimer := 1
    fired := []
    ripples := 1 }

/-- Machine state after an over-threshold move cancelled the still-pending
hold timer. -/
def movedSys (pid : Nat) (x y : Int) : Sys :=
  { state := { holdTimer := none, holdTriggered := false, holdIndicator := false,
               activePointerId := some pid, pendingHoldAction := false }
    closures := [{ pid := pid, startX := x, startY := y, hasMoved := true,
                   moveActive := true, upActive := true, cancelActive := true }]
    pendingTimers := []
    nextTimer := 1
    fired := []
    ripples := 1 }

lemma stepDown_init (cfg : Config) (pid : Nat) (x y : Int)
    (hHold : actionGuard cfg.hold_action = true) :
    stepDown cfg initSys pid x y = downSys pid x y := by
  simp [stepDown, initSys, createFreshState, clearHoldTimer, downSys, hHold]

lemma stepDown_init_noHold (cfg : Config) (pid : Nat) (x y : Int)
    (hHold : actionGuard cfg.hold_action = false) :
    stepDown cfg initSys pid x y = downSysNoHold pid x y := by
  simp [stepDown, initSys, createFreshState, clearHoldTimer, downSysNoHold, hHold]

lemma stepFire_downSys (pid : Nat) (x y : Int) :
    stepFireTimer (downSys pid x y) 0 = heldSys pid x y := by
  simp [stepFireTimer, downSys, heldSys, clearTimeout, List.find?]

/-- A timer delivery with an empty pending queue is a no-op. -/
lemma stepFire_nil (s : Sys) (h : Nat) (hp : s.pendingTimers = []) :
    stepFireTimer s h = s := by
  simp [stepFireTimer, hp]

lemma moveHandlerOne_noop (x y : Int) (s : Sys) (c : GestureClosure)
    (h : beyondThreshold (x - c.startX) (y - c.startY) = false) :
    moveHandlerOne x y s c = (s, c) := by
  unfold moveHandlerOne
  cases hm : c.moveActive <;> simp [hm, h]

lemma runMoveHandlers_noop (x y : Int) (s : Sys) (l : List GestureClosure)
    (h : ∀ c ∈ l, beyondThreshold (x - c.startX) (y - c.startY) = false) :
    runMoveHandlers x y s l = (s, l) := by
  induction l generalizing s with
  | nil => rfl
  | cons c rest ih =>
    have hc : beyondThreshold (x - c.startX) (y - c.startY) = false := h c (by simp)
    have hr : ∀ c' ∈ rest, beyondThreshold (x - c'.startX) (y - c'.startY) = false :=
      fun c' hc' => h c' (List.mem_cons_of_mem c hc')
    simp [runMoveHandlers, moveHandlerOne_noop x y s c hc, ih s hr]

/-- Sub-threshold movement leaves the machine state untouched (for any state
whose closures all share the gesture origin). -/
lemma stepMove_noop (s : Sys) (x y mx my : Int)
    (hall : ∀ c ∈ s.closures, c.startX = x ∧ c.startY = y)
    (h : beyondThreshold (mx - x) (my - y) = false) :
    stepMove s mx my = s := by
  have h' : ∀ c ∈ s.closures, beyondThreshold (mx - c.startX) (my - c.startY) = false := by
    intro c hc
    obtain ⟨hx, hy⟩ := hall c hc
    rw [hx, hy]
    exact h
  simp [stepMove, runMoveHandlers_noop mx my s s.closures h']

/-- A run of sub-threshold move events leaves the machine state untouched. -/
lemma foldl_within_moves (cfg : Config) (x y : Int) (s : Sys)
    (hall : ∀ c ∈ s.closures, c.startX = x ∧ c.startY = y)
    (ms : List Ev) (hms : ∀ e ∈ ms, withinMoveOf x y e) :
    List.foldl (step cfg) s ms = s := by
  induction ms with
  | nil => rfl
  | cons e rest ih =>
    have he := hms e (by simp)
    have hrest : ∀ e' ∈ rest, withinMoveOf x y e' :=
      fun e' he' => hms e' (List.mem_cons_of_mem e he')
    cases e with
    | move mpid mx my =>
      rw [List.foldl_cons]
      simp only [step]
      rw [stepMove_noop s x y mx my hall he]
      exact ih hrest
    | down pid' x' y' => exact he.elim
    | up pid' => exact he.elim
    | fire h' => exact he.elim
    | cancel => exact he.elim
    | nav c' => exact he.elim

lemma downSys_starts (pid : Nat) (x y : Int) :
    ∀ c ∈ (downSys pid x y).closures, c.startX = x ∧ c.startY = y := by
  intro c hc
  simp [downSys] at hc
  simp [hc]

lemma downSysNoHold_starts (pid : Nat) (x y : Int) :
    ∀ c ∈ (downSysNoHold pid x y).closures, c.startX = x ∧ c.startY = y := by
  intro c hc
  simp [downSysNoHold] at hc
  simp [hc]

lemma heldSys_starts (pid : Nat) (x y : Int) :
    ∀ c ∈ (heldSys pid x y).closures, c.startX = x ∧ c.startY = y := by
  intro c hc
  simp [heldSys] at hc
  simp [hc]

lemma stepMove_downSys_beyond (pid : Nat) (x y mx my : Int)
    (h : beyondThreshold (mx - x) (my - y) = true) :
    stepMove (downSys pid x y) mx my = movedSys pid x y := by
  simp [stepMove, runMoveHandlers, moveHandlerOne, downSys, movedSys,
    clearHoldTimer, clearTimeout, h]

lemma stepUp_heldSys (cfg : Config) (pid : Nat) (x y : Int)
    (hHold : actionGuard cfg.hold_action = true) :
    stepUp cfg (heldSys pid x y) =
      { state := createFreshState
        closures := [{ pid := pid, startX := x, startY := y, hasMoved := false,
                       moveActive := false, upActive := false, cancelActive := false }]
        pendingTimers := []
        nextTimer := 1
        fired := [GKind.hold]
        ripples := 0 } := by
  simp [stepUp, runUpHandlers, upHandlerOne, heldSys, clearHoldTimer, clearTimeout,
    createFreshState, hHold]

lemma stepUp_downSys (cfg : Config) (pid : Nat) (x y : Int)
    (hTap : actionGuard cfg.tap_action = true) :
    stepUp cfg (downSys pid x y) =
      { state := createFreshState
        closures := [{ pid := pid, startX := x, startY := y, hasMoved := false,
                       moveActive := false, upActive := false, cancelActive := false }]
        pendingTimers := []
        nextTimer := 1
        fired := [GKind.tap]
        ripples := 0 } := by
  simp [stepUp, runUpHandlers, upHandlerOne, downSys, clearHoldTimer, clearTimeout,
    createFreshState, hTap]

lemma stepUp_downSysNoHold (cfg : Config) (pid : Nat) (x y : Int)
    (hTap : actionGuard cfg.tap_action = true) :
    stepUp cfg (downSysNoHold pid x y) =
      { state := createFreshState
        closures := [{ pid := pid, startX := x, startY := y, hasMoved := false,
                       moveActive := false, upActive := false, cancelActive := false }]
        pendingTimers := []
        nextTimer := 0
        fired := [GKind.tap]
        ripples := 0 } := by
  simp [stepUp, runUpHandlers, upHandlerOne, downSysNoHold, clearHoldTimer,
    clearTimeout, createFreshState, hTap]

lemma stepUp_movedSys (cfg : Config) (pid : Nat) (x y : Int) :
    stepUp cfg (movedSys pid x y) =
      { state := createFreshState
        closures := [{ pid := pid, startX := x, startY := y, hasMoved := true,
                       moveActive := false, upActive := false, cancelActive := false }]
        pendingTimers := []
        nextTimer := 1
        fired := []
        ripples := 0 } := by
  simp [stepUp, runUpHandlers, upHandlerOne, movedSys, clearHoldTimer,
    createFreshState]

/-! ## Claims C1, C2, C3: the three single-pointer gesture outcomes -/

/-- Claim C1: a gesture of pointer-down, any pointer movement staying within
the 10-unit threshold, the 500 ms hold timer firing, more sub-threshold
movement, and pointer-up of the same pointer executes the configured hold
action exactly once and does not execute the tap action. -/
theorem holdGesture_fires_hold_once (cfg : Config) (pid : Nat) (x y : Int)
    (ms1 ms2 : List Ev)
    (hHold : actionGuard cfg.hold_action = true)
    (h1 : ∀ e ∈ ms1, withinMoveOf x y e)
    (h2 : ∀ e ∈ ms2, withinMoveOf x y e) :
    holdCount (run cfg (.down pid x y :: (ms1 ++ .fire 0 :: (ms2 ++ [.up pid])))) = 1 ∧
    tapCount (run cfg (.down pid x y :: (ms1 ++ .fire 0 :: (ms2 ++ [.up pid])))) = 0 := by
  unfold run
  rw [List.foldl_cons]
  simp only [step]
  rw [stepDown_init cfg pid x y hHold,
    List.foldl_append,
    foldl_within_moves cfg x y _ (downSys_starts pid x y) ms1 h1,
    List.foldl_cons]
  simp only [step]
  rw [stepFire_downSys pid x y,
    List.foldl_append,
    foldl_within_moves cfg x y _ (heldSys_starts pid x y) ms2 h2]
  simp only [List.foldl_cons, List.foldl_nil, step]
  rw [stepUp_heldSys cfg pid x y hHold]
  simp [holdCount, tapCount]

/-- Claim C1 witness: the bare down → timer fires → up gesture. -/
theorem holdGesture_fires_hold_once_witness :
    (actionGuard cfgBoth.hold_action = true ∧
     (∀ e ∈ ([] : List Ev), withinMoveOf 0 0 e) ∧
     (∀ e ∈ ([] : List Ev), withinMoveOf 0 0 e)) ∧
    (holdCount (run cfgBoth [.down 1 0 0, .fire 0, .up 1]) = 1 ∧
     tapCount (run cfgBoth [.down 1 0 0, .fire 0, .up 1]) = 0) :=
  by
  have hh : actionGuard cfgBoth.hold_action = true := by decide
  have hm : ∀ e ∈ ([] : List Ev), withinMoveOf 0 0 e := by simp
  exact ⟨⟨hh, hm, hm⟩, holdGesture_fires_hold_once cfgBoth 1 0 0 [] [] hh hm hm⟩

/-- Claim C2: a gesture of pointer-down, any movement staying within the
threshold, and pointer-up of the same pointer before the hold timer fires
executes the configured tap action exactly once and never the hold action —
even when the original timer delivery arrives after the release, it finds its
timer cleared. -/
theorem tapGesture_fires_tap_once (cfg : Config) (pid : Nat) (x y : Int)
    (ms : List Ev)
    (hTap : actionGuard cfg.tap_action = true)
    (hms : ∀ e ∈ ms, withinMoveOf x y e) :
    tapCount (run cfg (.down pid x y :: (ms ++ [.up pid, .fire 0]))) = 1 ∧
    holdCount (run cfg (.down pid x y :: (ms ++ [.up pid, .fire 0]))) = 0 := by
  unfold run
  rw [List.foldl_cons]
  simp only [step]
  by_cases hHold : actionGuard cfg.hold_action
  · rw [stepDown_init cfg pid x y hHold,
      List.foldl_append,
      foldl_within_moves cfg x y _ (downSys_starts pid x y) ms hms]
    simp only [List.foldl_cons, List.foldl_nil, step]
    rw [stepUp_downSys cfg pid x y hTap, stepFire_nil _ 0 rfl]
    simp [tapCount, holdCount]
  · rw [stepDown_init_noHold cfg pid x y (by simpa using hHold),
      List.foldl_append,
      foldl_within_moves cfg x y _ (downSysNoHold_starts pid x y) ms hms]
    simp only [List.foldl_cons, List.foldl_nil, step]
    rw [stepUp_downSysNoHold cfg pid x y hTap, stepFire_nil _ 0 rfl]
    simp [tapCount, holdCount]

/-- Claim C2 witness: the bare down → up gesture with a late timer delivery. -/
theorem tapGesture_fires_tap_once_witness :
    (actionGuard cfgBoth.tap_action = true ∧
     (∀ e ∈ ([] : List Ev), withinMoveOf 0 0 e)) ∧
    (tapCount (run cfgBoth [.down 1 0 0, .up 1, .fire 0]) = 1 ∧
     holdCount (run cfgBoth [.down 1 0 0, .up 1, .fire 0]) = 0) :=
  by
  have ht : actionGuard cfgBoth.tap_action = true := by decide
  have hm : ∀ e ∈ ([] : List Ev), withinMoveOf 0 0 e := by simp
  exact ⟨⟨ht, hm⟩, tapGesture_fires_tap_once cfgBoth 1 0 0 [] ht hm⟩

/-- Claim C3: when the same pointer moves more than 10 units from its origin
before the hold timer fires, the move handler cancels the hold timer
(`state.holdTimer` is nulled and the pending callback is removed, so a later
delivery of the timer is a no-op), and the subsequent pointer-up executes
neither the tap action nor the hold action. -/
theorem moveGesture_cancels_all (cfg : Config) (pid : Nat) (x y mx my : Int)
    (ms1 : List Ev)
    (hHold : actionGuard cfg.hold_action = true)
    (hms : ∀ e ∈ ms1, withinMoveOf x y e)
    (hMove : beyondThreshold (mx - x) (my - y) = true) :
    (run cfg (.down pid x y :: (ms1 ++ [.move pid mx my]))).state.holdTimer = none ∧
    (run cfg (.down pid x y :: (ms1 ++ [.move pid mx my]))).pendingTimers = [] ∧
    holdCount (run cfg (.down pid x y :: (ms1 ++ [.move pid mx my, .fire 0, .up pid]))) = 0 ∧
    tapCount (run cfg (.down pid x y :: (ms1 ++ [.move pid mx my, .fire 0, .up pid]))) = 0 := by
  have hmid : run cfg (.down pid x y :: (ms1 ++ [.move pid mx my])) = movedSys pid x y := by
    unfold run
    rw [List.foldl_cons]
    simp only [step]
    rw [stepDown_init cfg pid x y hHold,
      List.foldl_append,
      foldl_within_moves cfg x y _ (downSys_starts pid x y) ms1 hms]
    simp only [List.foldl_cons, List.foldl_nil, step]
    exact stepMove_downSys_beyond pid x y mx my hMove
  have hend : run cfg (.down pid x y :: (ms1 ++ [.move pid mx my, .fire 0, .up pid])) =
      stepUp cfg (movedSys pid x y) := by
    unfold run
    rw [List.foldl_cons]
    simp only [step]
    rw [stepDown_init cfg pid x y hHold,
      List.foldl_append,
      foldl_within_moves cfg x y _ (downSys_starts pid x y) ms1 hms]
    simp only [List.foldl_cons, List.foldl_nil, step]
    rw [stepMove_downSys_beyond pid x y mx my hMove, stepFire_nil _ 0 rfl]
  refine ⟨?_, ?_, ?_, ?_⟩
  · rw [hmid]; rfl
  · rw [hmid]; rfl
  · rw [hend, stepUp_movedSys cfg pid x y]; rfl
  · rw [hend, stepUp_movedSys cfg pid x y]; rfl

/-- Claim C3 witness: down, an over-threshold move, a dead timer delivery,
then up. -/
theorem moveGesture_cancels_all_witness :
    (actionGuard cfgBoth.hold_action = true ∧
     (∀ e ∈ ([] : List Ev), withinMoveOf 0 0 e) ∧
     beyondThreshold ((100 : Int) - 0) ((7 : Int) - 0) = true) ∧
    ((run cfgBoth [.down 1 0 0, .move 1 100 7]).state.holdTimer = none ∧
     (run cfgBoth [.down 1 0 0, .move 1 100 7]).pendingTimers = [] ∧
     holdCount (run cfgBoth [.down 1 0 0, .move 1 100 7, .fire 0, .up 1]) = 0 ∧
     tapCount (run cfgBoth [.down 1 0 0, .move 1 100 7, .fire 0, .up 1]) = 0) :=
  by
  have hh : actionGuard cfgBoth.hold_action = true := by decide
  have hm : ∀ e ∈ ([] : List Ev), withinMoveOf 0 0 e := by simp
  have hb : beyondThreshold ((100 : Int) - 0) ((7 : Int) - 0) = true := by decide
  exact ⟨⟨hh, hm, hb⟩, moveGesture_cancels_all cfgBoth 1 0 0 100 7 [] hh hm hb⟩

/-! ## Claim C7: pointer-cancel discards everything

The invariant `midGestureInv` characterises what matters about any state
strictly inside a single-pointer gesture: one live closure with its cancel
listener attached, nothing dispatched yet, one ripple, and a consistent timer
queue.  It holds after pointer-down and is preserved by every in-gesture
event (moves and timer deliveries). -/

def midGestureInv (s : Sys) : Prop :=
  (∃ c : GestureClosure, s.closures = [c] ∧ c.cancelActive = true) ∧
  s.fired = [] ∧ s.ripples = 1 ∧ timersConsistent s

/-- Under timer-queue consistency, clearing the hold timer always empties the
pending queue and nulls the stored handle, leaving everything else alone. -/
lemma clearHoldTimer_consistent (s : Sys) (hc : timersConsistent s) :
    clearHoldTimer s = { s with pendingTimers := []
                                state := { s.state with holdTimer := none } } := by
  obtain ⟨⟨ht, htr, hi, ap, ph⟩, cl, pt, nt, fr, rp⟩ := s
  cases ht with
  | none =>
    have hp : pt = [] := by
      cases hp' : pt with
      | nil => rfl
      | cons t ts =>
        have h0 := hc t (by simp [hp'])
        simp [timersConsistent] at h0
    subst hp
    rfl
  | some h =>
    have hp : clearTimeout pt h = [] := by
      simp only [clearTimeout]
      rw [List.filter_eq_nil_iff]
      intro t ht'
      have h0 := hc t ht'
      simp at h0
      simp [h0]
    simp [clearHoldTimer, hp]

lemma moveHandlerOne_cases (x y : Int) (s : Sys) (c : GestureClosure) :
    moveHandlerOne x y s c = (s, c) ∨
    moveHandlerOne x y s c = (clearHoldTimer s, { c with hasMoved := true }) := by
  unfold moveHandlerOne
  split
  · exact Or.inl rfl
  · split
    · split
      · exact Or.inr rfl
      · exact Or.inl rfl
    · exact Or.inl rfl

lemma midGestureInv_move (s : Sys) (mx my : Int) (hinv : midGestureInv s) :
    midGestureInv (stepMove s mx my) := by
  obtain ⟨⟨c, hcl, hca⟩, hf, hr, hc⟩ := hinv
  have hclear := clearHoldTimer_consistent s hc
  have hmo := moveHandlerOne_cases mx my s c
  unfold stepMove
  rw [hcl]
  simp only [runMoveHandlers]
  rcases hmo with hmo | hmo <;> rw [hmo]
  · exact ⟨⟨c, rfl, hca⟩, hf, hr, fun t ht => hc t ht⟩
  · rw [hclear]
    refine ⟨⟨{ c with hasMoved := true }, rfl, by simp [hca]⟩, hf, hr, ?_⟩
    intro t ht
    simp at ht

lemma midGestureInv_fire (s : Sys) (h : Nat) (hinv : midGestureInv s) :
    midGestureInv (stepFireTimer s h) := by
  obtain ⟨hcl, hf, hr, hc⟩ := hinv
  cases hfind : s.pendingTimers.find? (fun t => t.1 = h) with
  | none =>
    have hx : stepFireTimer s h = s := by
      unfold stepFireTimer
      rw [hfind]
    rw [hx]
    exact ⟨hcl, hf, hr, hc⟩
  | some t =>
    have hnil : clearTimeout s.pendingTimers h = [] := by
      simp only [clearTimeout]
      rw [List.filter_eq_nil_iff]
      intro u hu
      have hu1 := hc u hu
      have ht1 := hc t (List.mem_of_find?_eq_some hfind)
      rw [hu1] at ht1
      have hpred : t.1 = h := by simpa using List.find?_some hfind
      simp [Option.some_inj.mp ht1, hpred]
    have hx : stepFireTimer s h =
        if s.state.activePointerId = some t.2 then
          { s with
              pendingTimers := []
              state := { s.state with
                           holdTriggered := true
                           holdIndicator := true
                           pendingHoldAction := true } }
        else { s with pendingTimers := [] } := by
      unfold stepFireTimer
      rw [hfind, hnil]
    rw [hx]
    split
    · exact ⟨hcl, hf, hr, fun u hu => absurd hu (List.not_mem_nil u)⟩
    · exact ⟨hcl, hf, hr, fun u hu => absurd hu (List.not_mem_nil u)⟩

lemma midGestureInv_down (cfg : Config) (pid : Nat) (x y : Int) :
    midGestureInv (stepDown cfg initSys pid x y) := by
  by_cases hg : actionGuard cfg.hold_action
  · rw [stepDown_init cfg pid x y hg]
    exact ⟨⟨_, rfl, rfl⟩, rfl, rfl, fun t ht => by
      simp [downSys] at ht
      simp [downSys, ht]⟩
  · rw [stepDown_init_noHold cfg pid x y (by simpa using hg)]
    exact ⟨⟨_, rfl, rfl⟩, rfl, rfl, fun t ht => by
      simp [downSysNoHold] at ht⟩

lemma midGestureInv_foldl (cfg : Config) (s : Sys) (mids : List Ev)
    (hm : ∀ e ∈ mids, gestureMid e) (hinv : midGestureInv s) :
    midGestureInv (List.foldl (step cfg) s mids) := by
  induction mids generalizing s with
  | nil => exact hinv
  | cons e rest ih =>
    have he := hm e (by simp)
    have hrest : ∀ e' ∈ rest, gestureMid e' :=
      fun e' he' => hm e' (List.mem_cons_of_mem e he')
    rw [List.foldl_cons]
    refine ih _ hrest ?_
    cases e with
    | move mpid mx my => exact midGestureInv_move s mx my hinv
    | fire h => exact midGestureInv_fire s h hinv
    | down pid' x' y' => exact he.elim
    | up pid' => exact he.elim
    | cancel => exact he.elim
    | nav c' => exact he.elim

/-- From any mid-gesture state, `pointercancel` resets the shared state to the
fresh idle values, leaves no pending timer, dispatches nothing and removes
the ripple. -/
lemma stepCancel_of_midGestureInv (s : Sys) (hinv : midGestureInv s) :
    (stepCancel s).state = createFreshState ∧ (stepCancel s).pendingTimers = [] ∧
    (stepCancel s).fired = [] ∧ (stepCancel s).ripples = 0 := by
  obtain ⟨⟨c, hcl, hca⟩, hf, hr, hc⟩ := hinv
  unfold stepCancel
  rw [hcl]
  simp only [runCancelHandlers, cancelHandlerOne, hca]
  rw [clearHoldTimer_consistent s hc]
  simp [createFreshState, hf, hr]

/-- Claim C7: a gesture of pointer-down followed by any in-gesture events
(moves, timer deliveries) and then pointer-cancel ends with the hold timer
cancelled (no stored handle and no pending callback), the hold indicator and
the ripple discarded, neither the tap action nor the hold action dispatched,
and the shared gesture state equal to the fresh idle state. -/
theorem pointerCancel_resets (cfg : Config) (pid : Nat) (x y : Int) (mids : List Ev)
    (hm : ∀ e ∈ mids, gestureMid e) :
    (run cfg (.down pid x y :: (mids ++ [.cancel]))).state = createFreshState ∧
    (run cfg (.down pid x y :: (mids ++ [.cancel]))).pendingTimers = [] ∧
    (run cfg (.down pid x y :: (mids ++ [.cancel]))).fired = [] ∧
    (run cfg (.down pid x y :: (mids ++ [.cancel]))).ripples = 0 := by
  unfold run
  rw [List.foldl_cons, List.foldl_append]
  simp only [step, List.foldl_cons, List.foldl_nil]
  exact stepCancel_of_midGestureInv _
    (midGestureInv_foldl cfg _ mids hm (midGestureInv_down cfg pid x y))

/-- Claim C7 witness: pointer-cancel right after the hold timer fired. -/
theorem pointerCancel_resets_witness :
    (∀ e ∈ [Ev.fire 0], gestureMid e) ∧
    ((run cfgBoth [.down 1 0 0, .fire 0, .cancel]).state = createFreshState ∧
     (run cfgBoth [.down 1 0 0, .fire 0, .cancel]).pendingTimers = [] ∧
     (run cfgBoth [.down 1 0 0, .fire 0, .cancel]).fired = [] ∧
     (run cfgBoth [.down 1 0 0, .fire 0, .cancel]).ripples = 0) :=
  ⟨by simp [gestureMid], pointerCancel_resets cfgBoth 1 0 0 [Ev.fire 0]
    (by simp [gestureMid])⟩

/-! ## Claims about the action dispatcher, logger and entity helper -/

/-- Claim C10: `getPrimaryEntityId` returns the identifier of the first
element of a non-empty entities list (the element itself when it is a string,
otherwise its `entity` field); on the empty list the access to the first
element's `entity` field fails (`none`), so non-emptiness is a precondition:
the result is defined exactly on non-empty lists. -/
theorem getPrimaryEntityId_first_or_fail :
    (∀ (e : EntityEntry) (es : List EntityEntry),
        getPrimaryEntityId (e :: es) = some (entityIdOf e)) ∧
    getPrimaryEntityId [] = none ∧
    (∀ l : List EntityEntry, getPrimaryEntityId l = none ↔ l = []) := by
  refine ⟨fun e es => ?_, rfl, fun l => ?_⟩
  · cases e <;> rfl
  · cases l with
    | nil => simp [getPrimaryEntityId]
    | cons e es => cases e <;> simp [getPrimaryEntityId]

/-- Claim C9: the version banner is printed at most once per session — from an
unshown-banner state, `printVersionBanner` prints (a non-empty line list) and
sets `BANNER_SHOWN`; every subsequent call, with any version argument, prints
nothing and leaves the logger state untouched, including when the first or a
later call goes through `initializeLogger`. -/
theorem printVersionBanner_once (v v2 : String) (dm : Bool) (s : LoggerState)
    (hs : s.BANNER_SHOWN = false) :
    (printVersionBanner v s).1 ≠ [] ∧
    (printVersionBanner v s).2.BANNER_SHOWN = true ∧
    printVersionBanner v2 (printVersionBanner v s).2 = ([], (printVersionBanner v s).2) ∧
    (initializeLogger v dm s).1 ≠ [] ∧
    (initializeLogger v dm s).2.BANNER_SHOWN = true ∧
    printVersionBanner v2 (initializeLogger v dm s).2 = ([], (initializeLogger v dm s).2) := by
  simp [printVersionBanner, initializeLogger, hs]

/-- Logger state at module load (logger-utils.ts:6-20): debug off, level
`WARN = 1`, banner not yet shown. -/
def initialLoggerState : LoggerState :=
  { DEBUG_MODE := false, CURRENT_LOG_LEVEL := 1, BANNER_SHOWN := false }

/-- Claim C9 witness: first call prints, second call is a no-op, from the
initial logger state. -/
theorem printVersionBanner_once_witness :
    initialLoggerState.BANNER_SHOWN = false ∧
    ((printVersionBanner "1.0" initialLoggerState).1 ≠ [] ∧
     (printVersionBanner "1.0" initialLoggerState).2.BANNER_SHOWN = true ∧
     printVersionBanner "2.0" (printVersionBanner "1.0" initialLoggerState).2 =
       ([], (printVersionBanner "1.0" initialLoggerState).2) ∧
     (initializeLogger "1.0" true initialLoggerState).1 ≠ [] ∧
     (initializeLogger "1.0" true initialLoggerState).2.BANNER_SHOWN = true ∧
     printVersionBanner "2.0" (initializeLogger "1.0" true initialLoggerState).2 =
       ([], (initializeLogger "1.0" true initialLoggerState).2)) :=
  ⟨rfl, printVersionBanner_once "1.0" "2.0" true initialLoggerState rfl⟩

/-- Claim C8: `handleAction` never raises to its caller.  A missing
descriptor, a missing/empty/`'none'` `action` field, or an unknown action
type performs no external effect and logs nothing as an error; and when the
dispatch body throws (`handleActionBody` is `Except.error`, e.g. a throwing
`toggleExpanded` on `expand`), the exception is caught and surfaces only as
the logged message — `handleAction` still returns an ordinary value, so the
gesture cleanup following the dispatch in the pointer-up handler always
runs. -/
theorem handleAction_never_raises (hass : Bool) (eid : String)
    (runEffect : EffKind → Except String Unit) (cfg : ActionConfig) (a e : String) :
    handleAction none hass eid runEffect = ([], none) ∧
    (cfg.action = none → handleAction (some cfg) hass eid runEffect = ([], none)) ∧
    (cfg.action = some "none" → handleAction (some cfg) hass eid runEffect = ([], none)) ∧
    (cfg.action = some a →
      a ∉ ["", "none", "more-info", "navigate", "call-service", "url", "expand"] →
      handleAction (some cfg) hass eid runEffect = ([], none)) ∧
    (cfg.action = some a → a ≠ "" → a ≠ "none" →
      handleActionBody a cfg hass eid runEffect = Except.error e →
      handleAction (some cfg) hass eid runEffect = ([], some e)) := by
  refine ⟨rfl, fun h => ?_, fun h => ?_, fun h hmem => ?_, fun h h1 h2 hb => ?_⟩
  · simp [handleAction, h]
  · simp [handleAction, h]
  · simp only [List.mem_cons, List.mem_singleton, not_or] at hmem
    obtain ⟨m1, m2, m3, m4, m5, m6, m7⟩ := hmem
    simp [handleAction, handleActionBody, h, m1, m2, m3, m4, m5, m6, m7]
  · simp [handleAction, h, h1, h2, hb]

/-- Claim C8 witness: a throwing `toggleExpanded` on an `expand` action is
caught and logged, not re-raised. -/
theorem handleAction_never_raises_witness :
    (cfgExpand.action = some "expand" ∧ "expand" ≠ "" ∧ "expand" ≠ "none" ∧
     handleActionBody "expand" cfgExpand true "light.x" throwingRunner =
       Except.error "boom") ∧
    handleAction (some cfgExpand) true "light.x" throwingRunner = ([], some "boom") :=
  ⟨⟨rfl, by decide, by decide, rfl⟩,
   (handleAction_never_raises true "light.x" throwingRunner cfgExpand "expand"
      "boom").2.2.2.2 rfl (by decide) (by decide) rfl⟩

/-! ## Claims C4, C5, C6: counterexamples and amended statements -/

/-- Claim C4 counterexample: with both actions configured, the gesture
pointer-down → hold timer fires → movement beyond the 10-unit threshold →
pointer-up executes NO action at all — in particular the pending hold action
does not execute on pointer-up, contrary to the claim. -/
theorem heldThenMoved_fires_nothing_cex :
    holdCount (run cfgBoth [.down 1 0 0, .fire 0, .move 1 100 100, .up 1]) = 0 ∧
    tapCount (run cfgBoth [.down 1 0 0, .fire 0, .move 1 100 100, .up 1]) = 0 := by
  decide

/-- Claim C4 amended: movement beyond the threshold after the hold timer has
fired does not clear the `pendingHoldAction` flag — the flag (and the hold
indicator) survive the move itself — but on pointer-up the recorded movement
makes the held-and-moved case execute neither the hold action nor the tap
action. -/
theorem heldThenMoved_amended (cfg : Config) (pid : Nat) (x y mx my : Int)
    (hHold : actionGuard cfg.hold_action = true)
    (hMove : beyondThreshold (mx - x) (my - y) = true) :
    (run cfg [.down pid x y, .fire 0, .move pid mx my]).state.pendingHoldAction = true ∧
    (run cfg [.down pid x y, .fire 0, .move pid mx my]).state.holdTriggered = true ∧
    holdCount (run cfg [.down pid x y, .fire 0, .move pid mx my, .up pid]) = 0 ∧
    tapCount (run cfg [.down pid x y, .fire 0, .move pid mx my, .up pid]) = 0 := by
  simp [run, step, stepDown, stepFireTimer, stepMove, stepUp, runMoveHandlers,
    moveHandlerOne, runUpHandlers, upHandlerOne, clearHoldTimer, clearTimeout,
    initSys, createFreshState, holdCount, tapCount, hHold, hMove, List.find?]

/-- Claim C4 amended witness. -/
theorem heldThenMoved_amended_witness :
    (actionGuard cfgBoth.hold_action = true ∧
     beyondThreshold ((100 : Int) - 0) ((100 : Int) - 0) = true) ∧
    ((run cfgBoth [.down 1 0 0, .fire 0, .move 1 100 100]).state.pendingHoldAction = true ∧
     (run cfgBoth [.down 1 0 0, .fire 0, .move 1 100 100]).state.holdTriggered = true ∧
     holdCount (run cfgBoth [.down 1 0 0, .fire 0, .move 1 100 100, .up 1]) = 0 ∧
     tapCount (run cfgBoth [.down 1 0 0, .fire 0, .move 1 100 100, .up 1]) = 0) :=
  ⟨⟨by decide, by decide⟩,
   heldThenMoved_amended cfgBoth 1 0 0 100 100 (by decide) (by decide)⟩

/-- Claim C5 counterexample: after pointer 1 goes down and pointer 2 goes down
while pointer 1 is still held, the interaction is NOT owned by the first
pointer — `activePointerId` has become pointer 2 — and the first pointer's
pending hold timer (handle 0) has been cleared, so the second simultaneous
pointer is not ignored and does disturb the first pointer's pending hold. -/
theorem secondPointer_takes_over_cex :
    (run cfgBoth [.down 1 0 0, .down 2 50 50]).state.activePointerId ≠ some 1 ∧
    (run cfgBoth [.down 1 0 0, .down 2 50 50]).state.activePointerId = some 2 ∧
    (0, 1) ∉ (run cfgBoth [.down 1 0 0, .down 2 50 50]).pendingTimers := by
  decide

/-- Claim C5 amended: at most one pointer is tracked at a time, but ownership
is last-writer, not first-writer: a pointer-down from a second simultaneous
pointer takes over the active pointer, clears the first pointer's hold timer
(no pending timer for the first pointer remains) and — when a hold action is
configured — starts a fresh hold timer for the second pointer; no action is
dispatched by the take-over itself. -/
theorem secondPointer_takes_over_amended (cfg : Config) (p q : Nat) (xp yp xq yq : Int)
    (hpq : p ≠ q) :
    (run cfg [.down p xp yp, .down q xq yq]).state.activePointerId = some q ∧
    (∀ h : Nat, (h, p) ∉ (run cfg [.down p xp yp, .down q xq yq]).pendingTimers) ∧
    (run cfg [.down p xp yp, .down q xq yq]).pendingTimers =
      (if actionGuard cfg.hold_action then [(1, q)] else []) ∧
    (run cfg [.down p xp yp, .down q xq yq]).fired = [] := by
  by_cases hg : actionGuard cfg.hold_action <;>
    simp [run, step, stepDown, initSys, createFreshState, clearHoldTimer,
      clearTimeout, hg]
  omega

/-- Claim C5 amended witness. -/
theorem secondPointer_takes_over_amended_witness :
    (1 : Nat) ≠ 2 ∧
    ((run cfgBoth [.down 1 0 0, .down 2 50 50]).state.activePointerId = some 2 ∧
     (∀ h : Nat, (h, 1) ∉ (run cfgBoth [.down 1 0 0, .down 2 50 50]).pendingTimers) ∧
     (run cfgBoth [.down 1 0 0, .down 2 50 50]).pendingTimers =
       (if actionGuard cfgBoth.hold_action then [(1, 2)] else []) ∧
     (run cfgBoth [.down 1 0 0, .down 2 50 50]).fired = []) :=
  ⟨by decide, secondPointer_takes_over_amended cfgBoth 1 2 0 0 50 50 (by decide)⟩

/-- Claim C6 counterexample: a navigation event whose settling delay finds the
element disconnected tears down nothing — the live hold timer survives — and
the hold action can still fire afterwards, contrary to "every tracked
instance's live hold timer is cancelled ... without firing either action". -/
theorem navigation_disconnected_cex :
    (run cfgBoth [.down 1 0 0, .nav false]).state.holdTimer = some 0 ∧
    (run cfgBoth [.down 1 0 0, .nav false]).pendingTimers = [(0, 1)] ∧
    holdCount (run cfgBoth [.down 1 0 0, .nav false, .fire 0, .up 1]) = 1 := by
  decide

/-- Claim C6 amended: after an external navigation event and the 250 ms
settling delay, a tracked instance whose element is still connected has its
live hold timer cancelled, its hold indicator and ripples torn down without
firing either action (the dispatched-action list is unchanged), and its
gesture state replaced by a completely fresh state object; an instance whose
element is no longer connected is left untouched. -/
theorem navigation_reset_amended (s : Sys) (h : Nat)
    (hT : s.state.holdTimer = some h) :
    (stepNav s true).state = createFreshState ∧
    (stepNav s true).ripples = 0 ∧
    (stepNav s true).fired = s.fired ∧
    (stepNav s true).pendingTimers = clearTimeout s.pendingTimers h ∧
    stepNav s false = s := by
  simp [stepNav, resetInteractions, clearHoldTimer, hT]

/-- Claim C6 amended witness: navigation reset on a mid-hold state. -/
theorem navigation_reset_amended_witness :
    (run cfgBoth [.down 1 0 0]).state.holdTimer = some 0 ∧
    ((stepNav (run cfgBoth [.down 1 0 0]) true).state = createFreshState ∧
     (stepNav (run cfgBoth [.down 1 0 0]) true).ripples = 0 ∧
     (stepNav (run cfgBoth [.down 1 0 0]) true).fired = (run cfgBoth [.down 1 0 0]).fired ∧
     (stepNav (run cfgBoth [.down 1 0 0]) true).pendingTimers =
       clearTimeout (run cfgBoth [.down 1 0 0]).pendingTimers 0 ∧
     stepNav (run cfgBoth [.down 1 0 0]) false = run cfgBoth [.down 1 0 0]) :=
  ⟨by decide, navigation_reset_amended (run cfgBoth [.down 1 0 0]) 0 (by decide)⟩

end CalendarCardPro
